import Mathlib

/-!
Verification development for a small nutrition-ledger web server
(an Express application backed by a spreadsheet row store).

The definitions below are a shallow embedding of the server's request
handlers.  External effects are made explicit:

* the spreadsheet is a `List Row` (row 0 is the physical header row);
* remote calls that can fail are passed in as `Except`/outcome values;
* the host's generic date parser (`new Date(string)`) is an abstract
  parameter `parse : String → Option Int` returning epoch milliseconds,
  `none` standing for an invalid date;
* JavaScript numbers are modelled as `Int` (all arithmetic the handlers
  perform is integer arithmetic on `parseInt` results), and `Math.round`
  of a quotient is modelled exactly over `ℚ`.
-/

namespace CalorieTracker

/-- JavaScript truthiness of an optional string value: `undefined` and the
empty string are falsy, every other string is truthy. -/
def jsTruthy : Option String → Bool
  | none => false
  | some s => !s.isEmpty

/-- `a || d` for an optional string `a`: the JS or-default idiom. -/
def jsOrStr (a : Option String) (d : String) : String :=
  if jsTruthy a then a.getD d else d

/-- Model of the host `parseInt` on a string (radix 10): skip leading
whitespace, read an optional sign and then leading decimal digits;
`none` models the `NaN` result when no digit is found. -/
def jsParseInt (s : String) : Option Int :=
  let cs := s.data.dropWhile (fun c => c.isWhitespace)
  let signed : Int × List Char :=
    match cs with
    | '-' :: rest => (-1, rest)
    | '+' :: rest => (1, rest)
    | _ => (1, cs)
  let ds := signed.2.takeWhile (fun c => c.isDigit)
  if ds.isEmpty then none
  else some (signed.1 * (ds.foldl (fun a c => a * 10 + (c.toNat - 48)) 0 : Nat))

/-- `parseInt(c) || d` applied to an optional cell: a missing cell parses to
`NaN`, and both `NaN` and `0` are falsy, falling back to the default. -/
def jsOrInt (v : Option Int) (d : Int) : Int :=
  match v with
  | some x => if x = 0 then d else x
  | none => d

/-- `parseInt(cell) || d` where the cell may be absent (`undefined`). -/
def toIntOrD (c : Option String) (d : Int) : Int :=
  jsOrInt (c.bind jsParseInt) d

/-- OAuth token record persisted in the credential file.  `none` means the
field is absent from the JSON object. -/
structure Tokens where
  access_token : Option String := none
  refresh_token : Option String := none
  scope : Option String := none
  token_type : Option String := none
  expiry_date : Option Int := none
deriving DecidableEq

/-- JS object spread `{ ...old, ...new }`: a field present on the incoming
payload overrides, an absent field keeps the previously stored value. -/
def mergeTokens (old new : Tokens) : Tokens where
  access_token := match new.access_token with
    | some v => some v
    | none => old.access_token
  refresh_token := match new.refresh_token with
    | some v => some v
    | none => old.refresh_token
  scope := match new.scope with
    | some v => some v
    | none => old.scope
  token_type := match new.token_type with
    | some v => some v
    | none => old.token_type
  expiry_date := match new.expiry_date with
    | some v => some v
    | none => old.expiry_date

/-- The `oauth2Client.on('tokens')` refresh handler.  `file` is the current
contents of the token file (`none` if it does not exist); the result is the
file contents after the event, `Except.error ()` modelling the exception
thrown when the handler reads a missing file on the merge path. -/
def onTokensEvent (file : Option Tokens) (payload : Tokens) :
    Except Unit (Option Tokens) :=
  if jsTruthy payload.refresh_token then
    Except.ok (some payload)
  else
    match file with
    | some old => Except.ok (some (mergeTokens old payload))
    | none => Except.error ()

/-- Process environment and OAuth client state relevant to the guards. -/
structure Env where
  sheetsId : Option String := none
  accessToken : Option String := none
deriving DecidableEq

/-- The guard used by every ledger/summary/targets route:
`process.env.GOOGLE_SHEETS_ID && oauth2Client.credentials?.access_token`. -/
def Env.authed (e : Env) : Bool :=
  jsTruthy e.sheetsId && jsTruthy e.accessToken

/-! ## Spreadsheet rows -/

abbrev Cell := String
abbrev Row := List Cell
abbrev SheetData := List Row

/-- Character-by-character lowercasing (the computation behind
`String.toLower`, stated over the character list so that it evaluates). -/
def jsToLower (s : String) : String :=
  String.mk (s.data.map Char.toLower)

/-- `rows[0]?.[0]?.toLowerCase() === 'date'` applied to a single row. -/
def isHeaderCell (r : Row) : Bool :=
  match r[0]? with
  | some v => jsToLower v == "date"
  | none => false

/-- Header detection of the entries handler: first cell of the first row,
case-insensitively equal to `date`. -/
def hasHeader (rows : SheetData) : Bool :=
  match rows with
  | r :: _ => isHeaderCell r
  | [] => false

/-- One element of the `GET /entries` response list. -/
structure Entry where
  rowIndex : Nat
  date : Option Cell
  time : Option Cell
  food : Option Cell
  calories : Int
  protein : Int
  carbs : Int
  fat : Int
  logged : Bool
deriving DecidableEq

/-- Build the response entry for the data row with logical index `i`. -/
def mkEntry (i : Nat) (r : Row) : Entry where
  rowIndex := i
  date := r[0]?
  time := r[1]?
  food := r[2]?
  calories := toIntOrD (r[3]?) 0
  protein := toIntOrD (r[4]?) 0
  carbs := toIntOrD (r[5]?) 0
  fat := toIntOrD (r[6]?) 0
  logged := true

/-- Filter the rows by exact date equality on column A, numbering the
surviving rows by their position starting at `i`. -/
def entriesFrom (i : Nat) (date : String) : SheetData → List Entry
  | [] => []
  | r :: rs =>
      (if r[0]? = some date then [mkEntry i r] else []) ++
        entriesFrom (i + 1) date rs

/-- The `GET /entries` core: strip the header row when present (the code
computes `rowIndex = hasHeader ? index - 1 : index` and filters the header
out), then filter by exact date match. -/
def entriesOf (rows : SheetData) (date : String) : List Entry :=
  if hasHeader rows then
    match rows with
    | [] => []
    | _ :: data => entriesFrom 0 date data
  else entriesFrom 0 date rows

/-- The physical 1-based sheet row for logical data index `k`:
`+1` to convert to 1-based numbering, `+1` to skip the header row. -/
def sheetRowIndex (k : Nat) : Nat := k + 2

/-- The `DELETE /entries/:rowIndex` mutation on the sheet: delete the
dimension range `[sheetRowIndex - 1, sheetRowIndex)` of physical rows,
i.e. remove the 0-based physical row `k + 1`. -/
def deleteRow (rows : SheetData) (k : Nat) : SheetData :=
  rows.eraseIdx (sheetRowIndex k - 1)

/-- Replace the element at index `n`, leaving every other index alone
(and doing nothing when `n` is out of range). -/
def modifyRow : SheetData → Nat → (Row → Row) → SheetData
  | [], _, _ => []
  | r :: rs, 0, f => f r :: rs
  | r :: rs, n + 1, f => r :: modifyRow rs n f

/-- Write the four macro values into columns D..G (0-based cells 3..6). -/
def writeMacros (r : Row) (c p cb f : Cell) : Row :=
  (((r.set 3 c).set 4 p).set 5 cb).set 6 f

/-- The `PUT /entries/:rowIndex` mutation on the sheet: update the range
`D(sheetRowIndex):G(sheetRowIndex)`, i.e. cells 3..6 of the 0-based
physical row `k + 1`. -/
def updateSheet (rows : SheetData) (k : Nat) (c p cb f : Cell) : SheetData :=
  modifyRow rows (sheetRowIndex k - 1) (fun r => writeMacros r c p cb f)

/-! ## Summary window arithmetic -/

def msPerDay : Int := 86400000

/-- Days since the Unix epoch of a civil date (1-based month), the standard
days-from-civil computation used to give `new Date(y, m, d)` a concrete
meaning. -/
def daysFromCivil (y m d : Int) : Int :=
  let yy := if m ≤ 2 then y - 1 else y
  let era := yy.fdiv 400
  let yoe := yy - era * 400
  let mp := if m ≤ 2 then m + 9 else m - 3
  let doy := (153 * mp + 2).fdiv 5 + d - 1
  let doe := yoe * 365 + yoe.fdiv 4 - yoe.fdiv 100 + doy
  era * 146097 + doe - 719468

/-- Epoch milliseconds of local midnight `new Date(y, m, d)` with the
JavaScript conventions: `m` is 0-based and both `m` and `d` may lie outside
their calendar range, in which case they carry over (the constructor
normalises month by euclidean division and day by linear day arithmetic). -/
def jsDateMs (y m d : Int) : Int :=
  (daysFromCivil (y + m.fdiv 12) (m.emod 12 + 1) 1 + (d - 1)) * msPerDay

/-- The summary window start for a given period, computed from the calendar
fields (`getFullYear`, `getMonth`, `getDate`) of `now` in the client
timezone; any unrecognised period falls through to the daily window. -/
def startMs (period : Option String) (y m d : Int) : Int :=
  if period = some "daily" then jsDateMs y m d
  else if period = some "weekly" then jsDateMs y m (d - 7)
  else if period = some "monthly" then jsDateMs y (m - 1) d
  else jsDateMs y m d

/-- The summary row filter: skip the header row at index 0, skip rows whose
date cell does not parse, keep rows whose parsed date lies in the inclusive
window `[start, nowMs]`. -/
def rowMatches (parse : String → Option Int) (start nowMs : Int)
    (i : Nat) (r : Row) : Bool :=
  if i == 0 && isHeaderCell r then false
  else
    match (r[0]?).bind parse with
    | none => false
    | some t => decide (start ≤ t) && decide (t ≤ nowMs)

/-- The rows surviving the summary filter, indices starting at `i`. -/
def matchedFrom (parse : String → Option Int) (start nowMs : Int)
    (i : Nat) : SheetData → List Row
  | [] => []
  | r :: rs =>
      (if rowMatches parse start nowMs i r then [r] else []) ++
        matchedFrom parse start nowMs (i + 1) rs

/-- The rows of the sheet matched by the summary window. -/
def matchedRows (parse : String → Option Int) (start nowMs : Int)
    (rows : SheetData) : List Row :=
  matchedFrom parse start nowMs 0 rows

/-- The key set of the `dailyTotals` object: first-occurrence insertion
order, one key per distinct date string. -/
def insertKeys (l : List String) : List String :=
  l.foldl (fun ks k => if k ∈ ks then ks else ks ++ [k]) []

/-- `Math.round(t / n)` over exact rationals: round half away from minus
infinity, exactly JavaScript's rounding of the quotient. -/
def jsMathRound (t : Int) (n : Nat) : Int :=
  Int.floor ((t : ℚ) / (n : ℚ) + 1 / 2)

/-- The date-string key a matched row contributes to `dailyTotals`
(`row[0]`, guaranteed present on a matched row). -/
def dateKeyOf (r : Row) : String := (r[0]?).getD ""

/-- The `GET /summary` aggregation result. -/
structure Summary where
  totalCalories : Int
  totalProtein : Int
  totalCarbs : Int
  totalFat : Int
  entryCount : Nat
  daysCount : Nat
  avgCalories : Int
  avgProtein : Int
  avgCarbs : Int
  avgFat : Int
deriving DecidableEq

/-- The `GET /summary` aggregation: filter the rows by the period window,
sum each macro with `parseInt(cell) || 0`, count distinct date keys
(`Object.keys(dailyTotals).length || 1`), and round the per-day averages. -/
def summarize (parse : String → Option Int) (period : Option String)
    (y m d nowMs : Int) (rows : SheetData) : Summary :=
  let start := startMs period y m d
  let matched := matchedRows parse start nowMs rows
  let totC := (matched.map (fun r => toIntOrD (r[3]?) 0)).sum
  let totP := (matched.map (fun r => toIntOrD (r[4]?) 0)).sum
  let totCb := (matched.map (fun r => toIntOrD (r[5]?) 0)).sum
  let totF := (matched.map (fun r => toIntOrD (r[6]?) 0)).sum
  let keys := insertKeys (matched.map dateKeyOf)
  let daysCount := if keys.length = 0 then 1 else keys.length
  { totalCalories := totC
    totalProtein := totP
    totalCarbs := totCb
    totalFat := totF
    entryCount := matched.length
    daysCount := daysCount
    avgCalories := jsMathRound totC daysCount
    avgProtein := jsMathRound totP daysCount
    avgCarbs := jsMathRound totCb daysCount
    avgFat := jsMathRound totF daysCount }

/-! ## HTTP handlers -/

/-- Request body of `POST /analyze`. -/
structure AnalyzeReq where
  food : Option String := none
  date : Option String := none
  image : Option String := none
  timezone : Option String := none
deriving DecidableEq

/-- The fixed-shape nutrition record parsed from the completion model's
response text (`food` is present only in image mode). -/
structure Nutrition where
  food : Option String := none
  calories : Int
  protein : Int
  carbs : Int
  fat : Int
deriving DecidableEq

/-- Response of `POST /analyze`; absent fields are `none`. -/
structure AnalyzeResp where
  status : Nat
  food : Option String := none
  calories : Option Int := none
  protein : Option Int := none
  carbs : Option Int := none
  fat : Option Int := none
  date : Option String := none
  time : Option String := none
  logged : Option Bool := none
  error : Option String := none
deriving DecidableEq

/-- The `POST /analyze` handler.  `llm` is the outcome of the completion
call and the `JSON.parse` of its text (`Except.error` carries the thrown
message); `dateStr`/`timeStr` are the locale-formatted clock values.  The
handler body contains no spreadsheet operation at all, so the sheet state
is threaded through unchanged. -/
def analyzeHandler (req : AnalyzeReq) (llm : Except String Nutrition)
    (dateStr timeStr : String) (sheet : SheetData) :
    AnalyzeResp × SheetData :=
  if !(jsTruthy req.food || jsTruthy req.image) then
    ({ status := 400, error := some "Food description or image is required" },
      sheet)
  else
    match llm with
    | Except.error e => ({ status := 500, error := some e }, sheet)
    | Except.ok n =>
        ({ status := 200
           food := if jsTruthy n.food then n.food else req.food
           calories := some n.calories
           protein := some n.protein
           carbs := some n.carbs
           fat := some n.fat
           date := some (jsOrStr req.date dateStr)
           time := some timeStr
           logged := some false }, sheet)

/-- Request body of `POST /confirm`. -/
structure ConfirmReq where
  food : String
  calories : Int
  protein : Int
  carbs : Int
  fat : Int
  date : String
  time : String
deriving DecidableEq

/-- Outcome of the `/confirm` spreadsheet interaction: the append call
fails, the append succeeds but the column-A length query fails, or both
succeed returning the length of column A. -/
inductive ConfirmSheetOutcome where
  | appendFail (msg : String)
  | lenFail (msg : String)
  | ok (colALen : Nat)
deriving DecidableEq

/-- Response of `POST /confirm`; `rowIndex = none` models JSON `null`. -/
structure ConfirmResp where
  status : Nat
  food : Option String := none
  calories : Option Int := none
  protein : Option Int := none
  carbs : Option Int := none
  fat : Option Int := none
  date : Option String := none
  time : Option String := none
  logged : Option Bool := none
  rowIndex : Option Int := none
  error : Option String := none
deriving DecidableEq

/-- The `POST /confirm` handler.  The spreadsheet block runs only when the
guard holds; any error thrown inside it is caught, leaving `logged` and
`rowIndex` at whatever they had reached. -/
def confirmHandler (env : Env) (req : ConfirmReq)
    (outcome : ConfirmSheetOutcome) : ConfirmResp :=
  if req.food = "" then
    { status := 400, error := some "Food description is required" }
  else
    let lr : Bool × Option Int :=
      if env.authed then
        match outcome with
        | ConfirmSheetOutcome.appendFail _ => (false, none)
        | ConfirmSheetOutcome.lenFail _ => (true, none)
        | ConfirmSheetOutcome.ok len =>
            (true, some ((if len = 0 then 1 else (len : Int)) - 2))
      else (false, none)
    { status := 200
      food := some req.food
      calories := some req.calories
      protein := some req.protein
      carbs := some req.carbs
      fat := some req.fat
      date := some req.date
      time := some req.time
      logged := some lr.1
      rowIndex := lr.2 }

/-- Response of `GET /summary`; `authenticated = none` on the 500 path
where the body carries no such field. -/
structure SummaryResp where
  status : Nat
  error : Option String := none
  authenticated : Option Bool := none
  summary : Option Summary := none
deriving DecidableEq

/-- The `GET /summary` handler.  `fetch` is the outcome of the range read
(`Except.error` a thrown message, `Except.ok none` an absent `values`
field, defaulted to `[]`).  The boolean of the pair records whether a
remote spreadsheet call was made. -/
def summaryHandler (env : Env) (parse : String → Option Int)
    (period : Option String) (y m d nowMs : Int)
    (fetch : Except String (Option (List Row))) : SummaryResp × Bool :=
  if !env.authed then
    ({ status := 200, error := some "Not authenticated",
       authenticated := some false }, false)
  else
    match fetch with
    | Except.error e => ({ status := 500, error := some e }, true)
    | Except.ok values =>
        ({ status := 200, authenticated := some true
           summary := some (summarize parse period y m d nowMs (values.getD [])) },
          true)

/-- Response of `GET /entries`. -/
structure EntriesResp where
  status : Nat
  entries : List Entry := []
  authenticated : Option Bool := none
  error : Option String := none
deriving DecidableEq

/-- The `GET /entries` handler. -/
def entriesHandler (env : Env) (date : String)
    (fetch : Except String (Option (List Row))) : EntriesResp × Bool :=
  if !env.authed then
    ({ status := 200, entries := [], authenticated := some false }, false)
  else
    match fetch with
    | Except.error e => ({ status := 500, error := some e }, true)
    | Except.ok values =>
        ({ status := 200, entries := entriesOf (values.getD []) date
           authenticated := some true }, true)

/-- Response shape of the mutating routes (`DELETE`/`PUT /entries`,
`PUT /settings/targets`). -/
structure SimpleResp where
  status : Nat
  success : Option Bool := none
  error : Option String := none
deriving DecidableEq

/-- The `DELETE /entries/:rowIndex` handler around the remote mutation. -/
def deleteHandler (env : Env) (k : Nat) (outcome : Except String Unit) :
    SimpleResp × Bool :=
  if !env.authed then
    ({ status := 401, error := some "Not authenticated" }, false)
  else
    match outcome with
    | Except.ok _ => ({ status := 200, success := some true }, true)
    | Except.error e => ({ status := 500, error := some e }, true)

/-- The `PUT /entries/:rowIndex` handler around the remote mutation. -/
def updateHandler (env : Env) (k : Nat) (c p cb f : Cell)
    (outcome : Except String Unit) : SimpleResp × Bool :=
  if !env.authed then
    ({ status := 401, error := some "Not authenticated" }, false)
  else
    match outcome with
    | Except.ok _ => ({ status := 200, success := some true }, true)
    | Except.error e => ({ status := 500, error := some e }, true)

/-- The `PUT /settings/targets` handler around the remote mutations. -/
def putTargetsHandler (env : Env) (outcome : Except String Unit) :
    SimpleResp × Bool :=
  if !env.authed then
    ({ status := 401, error := some "Not authenticated" }, false)
  else
    match outcome with
    | Except.ok _ => ({ status := 200, success := some true }, true)
    | Except.error e => ({ status := 500, error := some e }, true)

/-- Response of `GET /settings/targets`. -/
structure TargetsResp where
  status : Nat
  calories : Option Int := none
  protein : Option Int := none
  carbs : Option Int := none
  fat : Option Int := none
  error : Option String := none
deriving DecidableEq

/-- The `GET /settings/targets` handler.  `readResult` is the outcome of
reading `Settings!A2:D2`: `Except.error ()` models the throw when the sheet
or range does not exist (caught, treated as empty), `Except.ok none` an
absent `values` field, `Except.ok (some rows)` the returned value rows. -/
def getTargetsHandler (env : Env)
    (readResult : Except Unit (Option (List Row))) : TargetsResp × Bool :=
  if !env.authed then
    ({ status := 401, error := some "Not authenticated" }, false)
  else
    match readResult with
    | Except.error _ =>
        ({ status := 200, calories := some 1800, protein := some 180,
           carbs := some 115, fat := some 65 }, true)
    | Except.ok values =>
        match values with
        | some (r0 :: _) =>
            ({ status := 200
               calories := some (toIntOrD (r0[0]?) 1800)
               protein := some (toIntOrD (r0[1]?) 180)
               carbs := some (toIntOrD (r0[2]?) 115)
               fat := some (toIntOrD (r0[3]?) 65) }, true)
        | _ =>
            ({ status := 200, calories := some 1800, protein := some 180,
               carbs := some 115, fat := some 65 }, true)

/-! ## Theorems -/

/-- Claim C1: a valid `POST /analyze` request (food description and/or
image present) gets a response whose `logged` field is `false`, and the
handler performs no write to the ledger sheet: the sheet state after the
handler is the sheet state before it, whatever the completion-call
outcome. -/
theorem analyze_no_ledger_write (req : AnalyzeReq)
    (llm : Except String Nutrition) (dateStr timeStr : String)
    (sheet : SheetData) :
    (analyzeHandler req llm dateStr timeStr sheet).2 = sheet ∧
    ((jsTruthy req.food || jsTruthy req.image) = true →
      ∀ n, llm = Except.ok n →
        (analyzeHandler req llm dateStr timeStr sheet).1.logged = some false ∧
        (analyzeHandler req llm dateStr timeStr sheet).1.status = 200) := by
  constructor
  · unfold analyzeHandler
    split
    · rfl
    · cases llm <;> rfl
  · intro hv n hn
    subst hn
    simp [analyzeHandler, hv]

theorem analyze_no_ledger_write_witness :
    (jsTruthy (AnalyzeReq.food { food := some "apple" }) ||
        jsTruthy (AnalyzeReq.image { food := some "apple" })) = true ∧
    (analyzeHandler { food := some "apple" }
        (Except.ok { calories := 95, protein := 0, carbs := 25, fat := 0 })
        "1/1/2024" "12:00 PM" [["Date"]]).2 = [["Date"]] ∧
    (analyzeHandler { food := some "apple" }
        (Except.ok { calories := 95, protein := 0, carbs := 25, fat := 0 })
        "1/1/2024" "12:00 PM" [["Date"]]).1.logged = some false := by
  refine ⟨by decide, (analyze_no_ledger_write _ _ _ _ _).1, ?_⟩
  exact ((analyze_no_ledger_write _ _ _ _ _).2 (by decide) _ rfl).1

/-- Claim C2: a refresh payload that lacks a `refresh_token` field is
merged over the previously persisted record, so the stored `refresh_token`
after the save equals the one stored before it; a payload carrying a
`refresh_token` overwrites the record wholesale. -/
theorem token_refresh_preserves_refresh_token (old payload : Tokens)
    (h : payload.refresh_token = none) :
    onTokensEvent (some old) payload =
      Except.ok (some (mergeTokens old payload)) ∧
    (mergeTokens old payload).refresh_token = old.refresh_token ∧
    ∀ p : Tokens, jsTruthy p.refresh_token = true →
      onTokensEvent (some old) p = Except.ok (some p) := by
  refine ⟨?_, ?_, ?_⟩
  · simp [onTokensEvent, h, jsTruthy]
  · simp [mergeTokens, h]
  · intro p hp
    simp [onTokensEvent, hp]

theorem token_refresh_preserves_refresh_token_witness :
    Tokens.refresh_token ⟨some "newAccess", none, none, none, none⟩ = none ∧
    onTokensEvent (some ⟨some "oldAccess", some "keepMe", none, none, none⟩)
        ⟨some "newAccess", none, none, none, none⟩ =
      Except.ok (some (mergeTokens
        ⟨some "oldAccess", some "keepMe", none, none, none⟩
        ⟨some "newAccess", none, none, none, none⟩)) ∧
    (mergeTokens ⟨some "oldAccess", some "keepMe", none, none, none⟩
        ⟨some "newAccess", none, none, none, none⟩).refresh_token =
      some "keepMe" := by
  refine ⟨rfl, (token_refresh_preserves_refresh_token _ _ rfl).1, ?_⟩
  exact (token_refresh_preserves_refresh_token _ _ rfl).2.1

/-- Claim C3: a `POST /confirm` request with a non-empty food field whose
ledger append fails still gets HTTP 200 carrying the submitted fields with
`logged = false` and `rowIndex` null, not an error status. -/
theorem confirm_append_failure_degrades (env : Env) (req : ConfirmReq)
    (msg : String) (hf : req.food ≠ "") (ha : env.authed = true) :
    confirmHandler env req (ConfirmSheetOutcome.appendFail msg) =
      { status := 200, food := some req.food, calories := some req.calories,
        protein := some req.protein, carbs := some req.carbs,
        fat := some req.fat, date := some req.date, time := some req.time,
        logged := some false, rowIndex := none, error := none } := by
  simp [confirmHandler, hf, ha]

theorem confirm_append_failure_degrades_witness :
    ConfirmReq.food ⟨"banana", 105, 1, 27, 0, "1/2/2024", "09:00 AM"⟩ ≠ "" ∧
    Env.authed ⟨some "sheet-id", some "tok"⟩ = true ∧
    confirmHandler ⟨some "sheet-id", some "tok"⟩
        ⟨"banana", 105, 1, 27, 0, "1/2/2024", "09:00 AM"⟩
        (ConfirmSheetOutcome.appendFail "quota exceeded") =
      ⟨200, some "banana", some 105, some 1, some 27, some 0,
        some "1/2/2024", some "09:00 AM", some false, none, none⟩ := by
  exact ⟨by decide, by decide,
    confirm_append_failure_degrades _ _ _ (by decide) (by decide)⟩

/-- Claim C4: with no access token held or no spreadsheet id configured,
every ledger/targets/summary route returns its designated not-authenticated
outcome without any remote spreadsheet call (the boolean component records
whether a remote call was made): 401 with an error body for the mutating
entry and target routes, and a 200 with `authenticated:false` for
`GET /summary` and `GET /entries`. -/
theorem unauthenticated_guards (env : Env) (h : env.authed = false) :
    (∀ parse period y m d nowMs fetch,
        summaryHandler env parse period y m d nowMs fetch =
          ({ status := 200, error := some "Not authenticated",
             authenticated := some false, summary := none }, false)) ∧
    (∀ date fetch,
        entriesHandler env date fetch =
          ({ status := 200, entries := [], authenticated := some false,
             error := none }, false)) ∧
    (∀ k outcome,
        deleteHandler env k outcome =
          ({ status := 401, success := none,
             error := some "Not authenticated" }, false)) ∧
    (∀ k c p cb f outcome,
        updateHandler env k c p cb f outcome =
          ({ status := 401, success := none,
             error := some "Not authenticated" }, false)) ∧
    (∀ readResult,
        getTargetsHandler env readResult =
          ({ status := 401, calories := none, protein := none, carbs := none,
             fat := none, error := some "Not authenticated" }, false)) ∧
    (∀ outcome,
        putTargetsHandler env outcome =
          ({ status := 401, success := none,
             error := some "Not authenticated" }, false)) := by
  refine ⟨?_, ?_, ?_, ?_, ?_, ?_⟩ <;> intros <;>
    simp [summaryHandler, entriesHandler, deleteHandler, updateHandler,
      getTargetsHandler, putTargetsHandler, h]

theorem unauthenticated_guards_witness :
    Env.authed { sheetsId := none, accessToken := none } = false ∧
    summaryHandler { sheetsId := none, accessToken := none } (fun _ => none)
        (some "daily") 2024 0 15 0 (Except.ok none) =
      ({ status := 200, error := some "Not authenticated",
         authenticated := some false, summary := none }, false) ∧
    entriesHandler { sheetsId := none, accessToken := none } "1/1/2024"
        (Except.ok none) =
      ({ status := 200, entries := [], authenticated := some false,
         error := none }, false) ∧
    deleteHandler { sheetsId := none, accessToken := none } 0
        (Except.ok ()) =
      ({ status := 401, success := none,
         error := some "Not authenticated" }, false) ∧
    getTargetsHandler { sheetsId := none, accessToken := none }
        (Except.ok none) =
      ({ status := 401, calories := none, protein := none, carbs := none,
         fat := none, error := some "Not authenticated" }, false) := by
  have h := unauthenticated_guards { sheetsId := none, accessToken := none }
    (by decide)
  exact ⟨by decide, h.1 _ _ _ _ _ _ _, h.2.1 _ _, h.2.2.1 _ _, h.2.2.2.2.1 _⟩

/-- Claim C9: an authenticated `GET /settings/targets` whose range read
throws (the Settings sheet or range does not exist) or returns no value
rows answers HTTP 200 with exactly the defaults
`{calories:1800, protein:180, carbs:115, fat:65}`; the failure is caught
and never surfaces as an error. -/
theorem targets_default_on_missing (env : Env)
    (readResult : Except Unit (Option (List Row))) (ha : env.authed = true)
    (hr : readResult = Except.error () ∨ readResult = Except.ok none ∨
      readResult = Except.ok (some [])) :
    getTargetsHandler env readResult =
      ({ status := 200, calories := some 1800, protein := some 180,
         carbs := some 115, fat := some 65, error := none }, true) := by
  rcases hr with h | h | h <;> subst h <;> simp [getTargetsHandler, ha]

theorem targets_default_on_missing_witness :
    Env.authed { sheetsId := some "sheet-id", accessToken := some "tok" } = true ∧
    getTargetsHandler { sheetsId := some "sheet-id", accessToken := some "tok" }
        (Except.error ()) =
      ({ status := 200, calories := some 1800, protein := some 180,
         carbs := some 115, fat := some 65, error := none }, true) := by
  exact ⟨by decide, targets_default_on_missing _ _ (by decide) (Or.inl rfl)⟩

/-! ### Row update lemmas (claim C8) -/

theorem modifyRow_getElem?_ne (f : Row → Row) :
    ∀ (rows : SheetData) (n j : Nat), n ≠ j →
      (modifyRow rows n f)[j]? = rows[j]? := by
  intro rows
  induction rows with
  | nil => intro n j _; cases n <;> rfl
  | cons r rs ih =>
    intro n j hne
    cases n with
    | zero =>
      cases j with
      | zero => exact absurd rfl hne
      | succ j => simp [modifyRow]
    | succ n =>
      cases j with
      | zero => simp [modifyRow]
      | succ j =>
        simpa [modifyRow] using ih n j (fun hh => hne (by rw [hh]))

theorem modifyRow_getElem?_eq (f : Row → Row) :
    ∀ (rows : SheetData) (n : Nat) (r : Row), rows[n]? = some r →
      (modifyRow rows n f)[n]? = some (f r) := by
  intro rows
  induction rows with
  | nil => intro n r h; cases n <;> simp at h
  | cons x xs ih =>
    intro n r h
    cases n with
    | zero =>
      simp at h
      subst h
      simp [modifyRow]
    | succ n =>
      simpa [modifyRow] using ih n r (by simpa using h)

/-- Claim C8: an authenticated `PUT /entries/:rowIndex` writes the four
macro values to exactly cells D..G of the physical sheet row
`row_index + 2` (list index `sheetRowIndex k - 1 = k + 1`, since the list
is 0-based with the header at index 0), leaving columns A..C of that row
and every other row unchanged. -/
theorem update_writes_only_macro_columns (rows : SheetData) (k : Nat)
    (c p cb f : Cell) (r : Row) (hr : rows[k + 1]? = some r)
    (h7 : 7 ≤ r.length) :
    (∀ j, j ≠ k + 1 → (updateSheet rows k c p cb f)[j]? = rows[j]?) ∧
    (updateSheet rows k c p cb f)[k + 1]? = some (writeMacros r c p cb f) ∧
    (∀ i, i < 3 → (writeMacros r c p cb f)[i]? = r[i]?) ∧
    (writeMacros r c p cb f)[3]? = some c ∧
    (writeMacros r c p cb f)[4]? = some p ∧
    (writeMacros r c p cb f)[5]? = some cb ∧
    (writeMacros r c p cb f)[6]? = some f ∧
    (writeMacros r c p cb f).length = r.length := by
  have hidx : sheetRowIndex k - 1 = k + 1 := rfl
  refine ⟨?_, ?_, ?_, ?_, ?_, ?_, ?_, ?_⟩
  · intro j hj
    unfold updateSheet
    rw [hidx]
    exact modifyRow_getElem?_ne _ rows (k + 1) j (fun hh => hj hh.symm)
  · unfold updateSheet
    rw [hidx]
    exact modifyRow_getElem?_eq _ rows (k + 1) r hr
  · intro i hi
    unfold writeMacros
    rw [List.getElem?_set_ne (by omega), List.getElem?_set_ne (by omega),
      List.getElem?_set_ne (by omega), List.getElem?_set_ne (by omega)]
  · unfold writeMacros
    rw [List.getElem?_set_ne (by omega), List.getElem?_set_ne (by omega),
      List.getElem?_set_ne (by omega)]
    exact List.getElem?_set_self (by simpa using by omega)
  · unfold writeMacros
    rw [List.getElem?_set_ne (by omega), List.getElem?_set_ne (by omega)]
    exact List.getElem?_set_self (by simp; omega)
  · unfold writeMacros
    rw [List.getElem?_set_ne (by omega)]
    exact List.getElem?_set_self (by simp; omega)
  · unfold writeMacros
    exact List.getElem?_set_self (by simp; omega)
  · simp [writeMacros]

theorem update_writes_only_macro_columns_witness :
    ([["Date", "Time", "Food", "Calories", "Protein", "Carbs", "Fat"],
      ["1/1/2024", "08:00 AM", "egg", "70", "6", "0", "5"]] :
        SheetData)[0 + 1]? =
      some ["1/1/2024", "08:00 AM", "egg", "70", "6", "0", "5"] ∧
    7 ≤ (["1/1/2024", "08:00 AM", "egg", "70", "6", "0", "5"] : Row).length ∧
    (updateSheet [["Date", "Time", "Food", "Calories", "Protein", "Carbs",
        "Fat"], ["1/1/2024", "08:00 AM", "egg", "70", "6", "0", "5"]]
        0 "75" "7" "1" "5")[0]? =
      some ["Date", "Time", "Food", "Calories", "Protein", "Carbs", "Fat"] ∧
    (writeMacros ["1/1/2024", "08:00 AM", "egg", "70", "6", "0", "5"]
        "75" "7" "1" "5")[3]? = some "75" := by
  refine ⟨by decide, by decide, ?_, ?_⟩
  · exact (update_writes_only_macro_columns
      [["Date", "Time", "Food", "Calories", "Protein", "Carbs", "Fat"],
        ["1/1/2024", "08:00 AM", "egg", "70", "6", "0", "5"]] 0
      "75" "7" "1" "5" ["1/1/2024", "08:00 AM", "egg", "70", "6", "0", "5"]
      (by decide) (by decide)).1 0 (by decide)
  · exact (update_writes_only_macro_columns
      [["Date", "Time", "Food", "Calories", "Protein", "Carbs", "Fat"],
        ["1/1/2024", "08:00 AM", "egg", "70", "6", "0", "5"]] 0
      "75" "7" "1" "5" ["1/1/2024", "08:00 AM", "egg", "70", "6", "0", "5"]
      (by decide) (by decide)).2.2.2.1

/-! ### Key-set lemmas (claims C5, C10) -/

theorem mem_foldl_insert (l : List String) :
    ∀ (acc : List String) (a : String),
      (a ∈ l.foldl (fun ks k => if k ∈ ks then ks else ks ++ [k]) acc) ↔
        a ∈ acc ∨ a ∈ l := by
  induction l with
  | nil => intro acc a; simp
  | cons x xs ih =>
    intro acc a
    simp only [List.foldl_cons]
    by_cases hx : x ∈ acc
    · rw [if_pos hx, ih]
      constructor
      · rintro (h | h)
        · exact Or.inl h
        · exact Or.inr (List.mem_cons_of_mem _ h)
      · rintro (h | h)
        · exact Or.inl h
        · rcases List.mem_cons.mp h with h | h
          · exact Or.inl (h ▸ hx)
          · exact Or.inr h
    · rw [if_neg hx, ih]
      simp only [List.mem_append, List.mem_singleton, List.mem_cons]
      tauto

theorem nodup_foldl_insert (l : List String) :
    ∀ acc : List String, acc.Nodup →
      (l.foldl (fun ks k => if k ∈ ks then ks else ks ++ [k]) acc).Nodup := by
  induction l with
  | nil => intro acc h; simpa using h
  | cons x xs ih =>
    intro acc h
    simp only [List.foldl_cons]
    by_cases hx : x ∈ acc
    · rw [if_pos hx]
      exact ih acc h
    · rw [if_neg hx]
      refine ih _ ?_
      simp [List.nodup_append, h, hx]

theorem insertKeys_length (l : List String) :
    (insertKeys l).length = l.dedup.length := by
  have h1 : (insertKeys l).Nodup := nodup_foldl_insert l [] (by simp)
  have h2 : ∀ a, a ∈ insertKeys l ↔ a ∈ l := by
    intro a
    unfold insertKeys
    rw [mem_foldl_insert]
    simp
  have h3 : (insertKeys l).toFinset = l.dedup.toFinset := by
    ext a
    simp [List.mem_toFinset, h2, List.mem_dedup]
  have h4 := List.toFinset_card_of_nodup h1
  have h5 := List.toFinset_card_of_nodup (List.nodup_dedup l)
  rw [← h4, h3, h5]

theorem summarize_daysCount (parse : String → Option Int)
    (period : Option String) (y m d nowMs : Int) (rows : SheetData) :
    (summarize parse period y m d nowMs rows).daysCount =
      max 1 (((matchedRows parse (startMs period y m d) nowMs rows).map
        dateKeyOf).dedup.length) := by
  simp only [summarize]
  rw [insertKeys_length]
  generalize (((matchedRows parse (startMs period y m d) nowMs rows).map
    dateKeyOf).dedup.length) = n
  split_ifs with h <;> omega

/-- Claim C5: the summary satisfies
`avgCalories = round(totalCalories / daysCount)` (and likewise for
protein, carbs and fat) where `daysCount` is the number of distinct
date-string keys among the matched rows, taken as 1 when no rows match. -/
theorem summary_averages (parse : String → Option Int)
    (period : Option String) (y m d nowMs : Int) (rows : SheetData) :
    (summarize parse period y m d nowMs rows).daysCount =
      max 1 (((matchedRows parse (startMs period y m d) nowMs rows).map
        dateKeyOf).dedup.length) ∧
    (summarize parse period y m d nowMs rows).avgCalories =
      jsMathRound (summarize parse period y m d nowMs rows).totalCalories
        (summarize parse period y m d nowMs rows).daysCount ∧
    (summarize parse period y m d nowMs rows).avgProtein =
      jsMathRound (summarize parse period y m d nowMs rows).totalProtein
        (summarize parse period y m d nowMs rows).daysCount ∧
    (summarize parse period y m d nowMs rows).avgCarbs =
      jsMathRound (summarize parse period y m d nowMs rows).totalCarbs
        (summarize parse period y m d nowMs rows).daysCount ∧
    (summarize parse period y m d nowMs rows).avgFat =
      jsMathRound (summarize parse period y m d nowMs rows).totalFat
        (summarize parse period y m d nowMs rows).daysCount := by
  refine ⟨summarize_daysCount parse period y m d nowMs rows, rfl, rfl, rfl, rfl⟩

/-! ### Window characterisation (claim C6) -/

theorem rowMatches_iff (parse : String → Option Int) (start nowMs : Int)
    (i : Nat) (r : Row) :
    rowMatches parse start nowMs i r = true ↔
      (¬(i = 0 ∧ isHeaderCell r = true) ∧
        ∃ t, (r[0]?).bind parse = some t ∧ start ≤ t ∧ t ≤ nowMs) := by
  unfold rowMatches
  cases hb : (r[0]?).bind parse with
  | none =>
    by_cases hh : (i == 0 && isHeaderCell r) = true <;> simp [hh, hb]
  | some t =>
    by_cases hh : (i == 0 && isHeaderCell r) = true
    · rw [if_pos hh]
      simp only [Bool.and_eq_true, beq_iff_eq] at hh
      simp [hh]
    · rw [if_neg hh]
      simp only [Bool.and_eq_true, beq_iff_eq] at hh
      simp only [hb, Bool.and_eq_true, decide_eq_true_eq, Option.some.injEq]
      constructor
      · rintro ⟨h1, h2⟩
        exact ⟨fun hc => hh ⟨hc.1, hc.2⟩, t, rfl, h1, h2⟩
      · rintro ⟨_, t', ht', h1, h2⟩
        cases ht'
        exact ⟨h1, h2⟩

theorem matchedFrom_eq_filter (parse : String → Option Int)
    (start nowMs : Int) :
    ∀ (rows : SheetData) (i : Nat),
      matchedFrom parse start nowMs i rows =
        ((List.enumFrom i rows).filter
          (fun p => rowMatches parse start nowMs p.1 p.2)).map Prod.snd := by
  intro rows
  induction rows with
  | nil => intro i; rfl
  | cons r rs ih =>
    intro i
    simp only [matchedFrom, List.enumFrom, List.filter_cons]
    cases h : rowMatches parse start nowMs i r <;> simp [h, ih (i + 1)]

/-- Claim C6: the summary includes exactly the rows passing `rowMatches`:
not the header row at index 0, date cell parsing successfully, parsed
value inside the inclusive window `[start, now]`; and the window start is
midnight of now's calendar date for `daily`, exactly 7 days (in
milliseconds) before that midnight for `weekly`, the same day of the
previous month for `monthly`, and the daily value for any unrecognised
period. -/
theorem summary_window_filter (parse : String → Option Int)
    (period : Option String) (y m d nowMs : Int) (rows : SheetData) :
    (∀ i r, rowMatches parse (startMs period y m d) nowMs i r = true ↔
      (¬(i = 0 ∧ isHeaderCell r = true) ∧
        ∃ t, (r[0]?).bind parse = some t ∧
          startMs period y m d ≤ t ∧ t ≤ nowMs)) ∧
    matchedRows parse (startMs period y m d) nowMs rows =
      ((rows.enum.filter (fun p =>
        rowMatches parse (startMs period y m d) nowMs p.1 p.2)).map
          Prod.snd) ∧
    (period = some "daily" → startMs period y m d = jsDateMs y m d) ∧
    (period = some "weekly" →
      startMs period y m d = jsDateMs y m d - 7 * msPerDay) ∧
    (period = some "monthly" →
      startMs period y m d = jsDateMs y (m - 1) d) ∧
    (period ≠ some "daily" → period ≠ some "weekly" →
      period ≠ some "monthly" → startMs period y m d = jsDateMs y m d) := by
  refine ⟨fun i r => rowMatches_iff parse (startMs period y m d) nowMs i r,
    matchedFrom_eq_filter parse (startMs period y m d) nowMs rows 0,
    ?_, ?_, ?_, ?_⟩
  · intro h
    subst h
    rfl
  · intro h
    subst h
    show jsDateMs y m (d - 7) = jsDateMs y m d - 7 * msPerDay
    unfold jsDateMs
    ring
  · intro h
    subst h
    rfl
  · intro h1 h2 h3
    unfold startMs
    rw [if_neg h1, if_neg h2, if_neg h3]

theorem summary_window_filter_witness :
    (some "weekly" : Option String) = some "weekly" ∧
    startMs (some "weekly") 2024 2 10 = jsDateMs 2024 2 10 - 7 * msPerDay :=
  ⟨rfl, (summary_window_filter (fun _ => none) (some "weekly")
    2024 2 10 0 []).2.2.2.1 rfl⟩

/-! ### Delete/list index shifting (claim C7) -/

theorem entriesFrom_shift (date : String) :
    ∀ (rows : SheetData) (i : Nat),
      entriesFrom (i + 1) date rows =
        (entriesFrom i date rows).map
          (fun e => { e with rowIndex := e.rowIndex + 1 }) := by
  intro rows
  induction rows with
  | nil => intro i; rfl
  | cons r rs ih =>
    intro i
    simp only [entriesFrom, List.map_append]
    congr 1
    · by_cases h : r[0]? = some date <;> simp [h, mkEntry]
    · exact ih (i + 1)

theorem entriesFrom_rowIndex_le (date : String) :
    ∀ (rows : SheetData) (i : Nat) (e : Entry),
      e ∈ entriesFrom i date rows → i ≤ e.rowIndex := by
  intro rows
  induction rows with
  | nil => intro i e h; simp [entriesFrom] at h
  | cons r rs ih =>
    intro i e h
    simp only [entriesFrom, List.mem_append] at h
    rcases h with h | h
    · by_cases hc : r[0]? = some date
      · rw [if_pos hc] at h
        simp only [List.mem_singleton] at h
        subst h
        exact Nat.le_refl i
      · rw [if_neg hc] at h
        simp at h
    · exact Nat.le_of_succ_le (ih (i + 1) e h)

theorem entriesFrom_eraseIdx (date : String) :
    ∀ (rows : SheetData) (k i : Nat),
      entriesFrom i date (rows.eraseIdx k) =
        ((entriesFrom i date rows).filter
            (fun e => e.rowIndex != i + k)).map
          (fun e => if i + k < e.rowIndex then
            { e with rowIndex := e.rowIndex - 1 } else e) := by
  intro rows
  induction rows with
  | nil => intro k i; simp [entriesFrom, List.eraseIdx]
  | cons r rs ih =>
    intro k i
    cases k with
    | zero =>
      show entriesFrom i date rs = _
      rw [entriesFrom, List.filter_append, List.map_append]
      have h1 : (if r[0]? = some date then [mkEntry i r] else []).filter
          (fun e => e.rowIndex != i + 0) = [] := by
        by_cases hc : r[0]? = some date <;> simp [hc, mkEntry]
      rw [h1]
      have h2 : (entriesFrom (i + 1) date rs).filter
          (fun e => e.rowIndex != i + 0) = entriesFrom (i + 1) date rs := by
        apply List.filter_eq_self.mpr
        intro e he
        have hle := entriesFrom_rowIndex_le date rs (i + 1) e he
        simp only [bne_iff_ne, ne_eq]
        omega
      rw [List.map_nil, List.nil_append, h2, entriesFrom_shift, List.map_map]
      have hmap : ∀ e ∈ entriesFrom i date rs,
          ((fun e => if i + 0 < e.rowIndex then
              { e with rowIndex := e.rowIndex - 1 } else e) ∘
            (fun e => { e with rowIndex := e.rowIndex + 1 })) e = id e := by
        intro e he
        have hle := entriesFrom_rowIndex_le date rs i e he
        simp only [Function.comp_apply, id_eq]
        rw [if_pos (by omega)]
        cases e
        simp
      rw [List.map_congr_left hmap, List.map_id]
    | succ k =>
      show (if r[0]? = some date then [mkEntry i r] else []) ++
          entriesFrom (i + 1) date (rs.eraseIdx k) = _
      rw [entriesFrom, List.filter_append, List.map_append]
      congr 1
      · by_cases hc : r[0]? = some date
        · rw [if_pos hc]
          have h1 : ((mkEntry i r).rowIndex != i + (k + 1)) = true := by
            simp only [mkEntry, bne_iff_ne, ne_eq]
            omega
          simp only [List.filter_cons, h1, if_true, List.filter_nil,
            List.map_cons, List.map_nil]
          rw [if_neg (by simp only [mkEntry]; omega)]
        · rw [if_neg hc]
          simp
      · rw [ih k (i + 1)]
        have harith : i + 1 + k = i + (k + 1) := by omega
        rw [harith]

/-- Claim C7: on a ledger with a header row, deleting the entry at
`row_index = k` and then listing entries for the same date yields the
previously listed entries minus the one at index `k`, where every entry
previously at `row_index > k` has its index decreased by exactly 1 and
entries at `row_index < k` are unchanged. -/
theorem delete_shifts_row_indices (rows : SheetData) (k : Nat)
    (date : String) (hh : hasHeader rows = true)
    (hk : k + 1 < rows.length) :
    entriesOf (deleteRow rows k) date =
      ((entriesOf rows date).filter (fun e => e.rowIndex != k)).map
        (fun e => if k < e.rowIndex then { e with rowIndex := e.rowIndex - 1 }
          else e) := by
  cases rows with
  | nil => simp [hasHeader] at hh
  | cons r data =>
    have hdel : deleteRow (r :: data) k = r :: data.eraseIdx k := rfl
    have hh2 : hasHeader (r :: data.eraseIdx k) = true := by
      simpa [hasHeader] using hh
    rw [hdel]
    unfold entriesOf
    rw [if_pos hh2, if_pos hh]
    show entriesFrom 0 date (data.eraseIdx k) = _
    have h := entriesFrom_eraseIdx date data k 0
    simpa using h

theorem delete_shifts_row_indices_witness :
    hasHeader [["Date", "Time", "Food", "Calories", "Protein", "Carbs",
        "Fat"], ["1/1/2024", "08:00 AM", "egg", "70", "6", "0", "5"],
      ["1/1/2024", "09:00 AM", "toast", "80", "3", "15", "1"]] = true ∧
    0 + 1 < ([["Date", "Time", "Food", "Calories", "Protein", "Carbs",
        "Fat"], ["1/1/2024", "08:00 AM", "egg", "70", "6", "0", "5"],
      ["1/1/2024", "09:00 AM", "toast", "80", "3", "15", "1"]] :
        SheetData).length ∧
    entriesOf (deleteRow [["Date", "Time", "Food", "Calories", "Protein",
        "Carbs", "Fat"], ["1/1/2024", "08:00 AM", "egg", "70", "6", "0",
        "5"], ["1/1/2024", "09:00 AM", "toast", "80", "3", "15", "1"]] 0)
        "1/1/2024" =
      ((entriesOf [["Date", "Time", "Food", "Calories", "Protein", "Carbs",
          "Fat"], ["1/1/2024", "08:00 AM", "egg", "70", "6", "0", "5"],
        ["1/1/2024", "09:00 AM", "toast", "80", "3", "15", "1"]]
          "1/1/2024").filter (fun e => e.rowIndex != 0)).map
        (fun e => if 0 < e.rowIndex then { e with rowIndex := e.rowIndex - 1 }
          else e) :=
  ⟨by decide, by decide,
    delete_shifts_row_indices _ 0 _ (by decide) (by decide)⟩

/-- Claim C10: a macro cell that is missing or does not parse as an
integer is coerced to 0 rather than erroring or excluding the row: the
window filter never inspects the macro cells (so the row still counts
toward `entryCount` and contributes its date key to `daysCount`), the
totals sum the `parseInt(cell) || 0` coercions, and the entries listing
builds its macro fields the same way. -/
theorem macro_parse_coercion :
    (∀ c : Option Cell, c.bind jsParseInt = none → toIntOrD c 0 = 0) ∧
    (∀ (parse : String → Option Int) (start nowMs : Int) (i : Nat) (r : Row)
        (j : Nat) (v : Cell), 1 ≤ j →
      rowMatches parse start nowMs i (r.set j v) =
        rowMatches parse start nowMs i r) ∧
    (∀ (parse : String → Option Int) (period : Option String)
        (y m d nowMs : Int) (rows : SheetData),
      (summarize parse period y m d nowMs rows).entryCount =
        (matchedRows parse (startMs period y m d) nowMs rows).length ∧
      (summarize parse period y m d nowMs rows).totalCalories =
        ((matchedRows parse (startMs period y m d) nowMs rows).map
          (fun r => toIntOrD (r[3]?) 0)).sum ∧
      (summarize parse period y m d nowMs rows).daysCount =
        max 1 (((matchedRows parse (startMs period y m d) nowMs rows).map
          dateKeyOf).dedup.length)) ∧
    (∀ (i : Nat) (r : Row),
      (mkEntry i r).calories = toIntOrD (r[3]?) 0 ∧
      (mkEntry i r).protein = toIntOrD (r[4]?) 0 ∧
      (mkEntry i r).carbs = toIntOrD (r[5]?) 0 ∧
      (mkEntry i r).fat = toIntOrD (r[6]?) 0) ∧
    (∀ (date : String) (r : Row) (j : Nat) (v : Cell), 1 ≤ j →
      (((r.set j v)[0]? = some date) ↔ (r[0]? = some date))) := by
  refine ⟨?_, ?_, ?_, ?_, ?_⟩
  · intro c h
    unfold toIntOrD jsOrInt
    rw [h]
  · intro parse start nowMs i r j v hj
    unfold rowMatches isHeaderCell
    rw [List.getElem?_set_ne (by omega)]
  · intro parse period y m d nowMs rows
    exact ⟨rfl, rfl, summarize_daysCount parse period y m d nowMs rows⟩
  · intro i r
    exact ⟨rfl, rfl, rfl, rfl⟩
  · intro date r j v hj
    rw [List.getElem?_set_ne (by omega)]

theorem macro_parse_coercion_witness :
    ((some "n/a" : Option Cell).bind jsParseInt = none ∧
      toIntOrD (some "n/a") 0 = 0) ∧
    ((none : Option Cell).bind jsParseInt = none ∧
      toIntOrD (none : Option Cell) 0 = 0) ∧
    (1 : Nat) ≤ 3 ∧
    rowMatches (fun _ => some 0) 0 0 1
        (["1/1/2024", "t", "f", "oops"].set 3 "zzz") =
      rowMatches (fun _ => some 0) 0 0 1 ["1/1/2024", "t", "f", "oops"] := by
  refine ⟨⟨by decide, macro_parse_coercion.1 _ (by decide)⟩,
    ⟨rfl, macro_parse_coercion.1 _ rfl⟩, by decide, ?_⟩
  exact macro_parse_coercion.2.1 (fun _ => some 0) 0 0 1
    ["1/1/2024", "t", "f", "oops"] 3 "zzz" (by decide)

end CalorieTracker
